import Mathlib

/-!
Verification development for the py-selenium-utils repository.

The embedding models the element-resolution and interaction layer of
`src/common/base_page.py` together with the locator registry of
`src/common/locators.py`.  The external browser driver is modelled as a
record of pure functions over discrete time: at each instant a locator
either matches an element, matches nothing, or raises a driver fault.
`WebDriverWait(driver, w).until(cond)` is modelled as polling the
condition at instants 0, 1, ..., w of its own window and raising a
timeout when no instant succeeds.  Side effects (log entries, screenshot
writes, element actions) are collected in an effect list, and Python
exceptions are modelled by an explicit error type threaded through
`Except`.
-/

/-- Native locator strategies, modelling the `Locator` class of
`src/common/locators.py` (the eight `By` constants it exposes). -/
inductive By
  | cssSelector
  | id
  | name
  | xpath
  | linkText
  | plinkText
  | tagName
  | className
deriving DecidableEq, Repr

/-- Python exceptions visible in `base_page.py`: `ValueError`,
`TimeoutException`, `NoSuchElementException`,
`ElementNotInteractableException`, and any other driver-level fault. -/
inductive PyError
  | valueError (msg : String)
  | timeoutException
  | noSuchElement
  | elementNotInteractable
  | webDriverFault (msg : String)
deriving DecidableEq, Repr

/-- Observable side effects of the page-object methods: entering a
driver wait, log entries, screenshot file writes, and element actions. -/
inductive Effect
  | waitStarted
  | logInfo (msg : String)
  | logError (msg : String)
  | screenshot (path : String)
  | clearAct (b : By) (v : String)
  | sendKeysAct (b : By) (v : String) (text : String)
  | clickAct (b : By) (v : String)
deriving DecidableEq, Repr

/-- Outcome of one presence poll of the driver for a locator at one
instant: an element is found, nothing matches (the
`NoSuchElementException` that `WebDriverWait.until` swallows), or the
driver raises some other fault (which `until` re-raises). -/
inductive Poll
  | found
  | absent
  | fault (msg : String)
deriving DecidableEq, Repr

/-- The external browser driver, as the pure data the modelled methods
observe: presence polling over time, clickability over time, whether a
click raises `ElementNotInteractableException` at a given instant, and
the window handles with their titles. -/
structure Driver where
  poll : By → String → Nat → Poll := fun _ _ _ => Poll.absent
  clickable : By → String → Nat → Bool := fun _ _ _ => false
  clickNotInteractable : By → String → Nat → Bool := fun _ _ _ => false
  handles : List String := []
  titleOf : String → String := fun _ => ""
  currentWindow : String := ""

/-- The state a `BasePage` instance carries: the configured default
timeout.  Models `BasePage.__init__(self, driver=None, timeout=10)`. -/
structure BasePage where
  timeout : Nat := 10
deriving DecidableEq, Repr

/-- An element handle returned by resolution: the locator it was
resolved from and the instant at which it was found. -/
structure Elem where
  locBy : By
  locValue : String
  foundAt : Nat
deriving DecidableEq, Repr

/-- Association-list lookup, modelling a Python dict lookup. -/
def assocLookup : List (String × By) → String → Option By
  | [], _ => none
  | (k, b) :: rest, s => if s = k then some b else assocLookup rest s

/-- The `LOCATOR_MAP` dict of `src/common/locators.py`, in source
order. -/
def LOCATOR_MAP : List (String × By) :=
  [("css", By.cssSelector),
   ("id", By.id),
   ("name", By.name),
   ("xpath", By.xpath),
   ("link", By.linkText),
   ("plink", By.plinkText),
   ("tag", By.tagName),
   ("class", By.className)]

/-- The recognized strategy names (the keys of `LOCATOR_MAP`). -/
def recognizedStrategies : List String :=
  ["id", "name", "tag", "class", "link", "plink", "css", "xpath"]

/-- Python `x or y` on an optional integer: `None` and `0` are falsy
and fall back to `y`.  Models `timeout or self.timeout` and
`timeout or 1` in `base_page.py`. -/
def pyOrNat : Option Nat → Nat → Nat
  | none, d => d
  | some 0, d => d
  | some (n + 1), _ => n + 1

/-- Renders an exception for interpolation into a log message, like
Python `str(e)`. -/
def pyErrMsg : PyError → String
  | PyError.valueError m => m
  | PyError.timeoutException => "TimeoutException"
  | PyError.noSuchElement => "NoSuchElementException"
  | PyError.elementNotInteractable => "ElementNotInteractableException"
  | PyError.webDriverFault m => m

/-- Models `WebDriverWait(driver, w).until(EC.presence_of_element_located(...))`:
poll at instants `t, t+1, ..., t+fuel`; return the first instant at
which the element is found, raise the driver fault if a poll faults,
and raise `TimeoutException` when the window is exhausted. -/
def waitLoop (poll : Nat → Poll) : Nat → Nat → Except PyError Nat
  | 0, t =>
    match poll t with
    | Poll.found => Except.ok t
    | Poll.fault m => Except.error (PyError.webDriverFault m)
    | Poll.absent => Except.error PyError.timeoutException
  | fuel + 1, t =>
    match poll t with
    | Poll.found => Except.ok t
    | Poll.fault m => Except.error (PyError.webDriverFault m)
    | Poll.absent => waitLoop poll fuel (t + 1)

/-- Models `WebDriverWait(driver, w).until(EC.element_to_be_clickable(...))`:
poll a boolean condition at instants `t, ..., t+fuel`; return the first
instant at which it holds, or `none` on timeout. -/
def waitUntilB (cond : Nat → Bool) : Nat → Nat → Option Nat
  | 0, t => if cond t then some t else none
  | fuel + 1, t => if cond t then some t else waitUntilB cond fuel (t + 1)

/-- Models `BasePage.save_screenshot(name)`: writes
`../data/result_pics/<name>.png` and logs success. -/
def save_screenshot (nm : String) : List Effect :=
  [Effect.screenshot ("../data/result_pics/" ++ nm ++ ".png"),
   Effect.logInfo ("成功保存截图: ../data/result_pics/" ++ nm ++ ".png")]

/-- Models `BasePage.find_element(type, value, timeout)`:
raise `ValueError` for an unrecognized strategy before touching the
driver; otherwise wait with window `timeout or self.timeout`; on
`TimeoutException` log the failure, save the diagnostic screenshot and
re-raise; on any other fault log and re-raise; on success return the
element handle. -/
def find_element (p : BasePage) (d : Driver) (ty v : String) (timeout : Option Nat) :
    Except PyError Elem × List Effect :=
  match assocLookup LOCATOR_MAP ty with
  | none => (Except.error (PyError.valueError ("不支持的定位方式: " ++ ty)), [])
  | some b =>
    match waitLoop (d.poll b v) (pyOrNat timeout p.timeout) 0 with
    | Except.ok t => (Except.ok ⟨b, v, t⟩, [Effect.waitStarted])
    | Except.error PyError.timeoutException =>
        (Except.error PyError.timeoutException,
         [Effect.waitStarted,
          Effect.logError ("超时未找到元素: " ++ ty ++ "=" ++ v)] ++
           save_screenshot ("element_not_found_" ++ ty ++ "_" ++ v))
    | Except.error e =>
        (Except.error e,
         [Effect.waitStarted,
          Effect.logError ("查找元素失败: " ++ ty ++ "=" ++ v ++ ", 错误: " ++ pyErrMsg e)])

/-- Driver with no matching element at any instant. -/
def absentDriver : Driver := {}

/-- Driver whose element is absent at instant 0 and present from
instant 1 on. -/
def lateDriver : Driver :=
  { poll := fun _ _ t => if 1 ≤ t then Poll.found else Poll.absent }

/-- Driver whose element is always present but never clickable. -/
def presentDriver : Driver :=
  { poll := fun _ _ _ => Poll.found }

example : (find_element {} absentDriver "id" "x" (some 1)).1 =
    Except.error PyError.timeoutException := rfl

example : (find_element {} lateDriver "id" "x" (some 0)).1 =
    Except.ok ⟨By.id, "x", 1⟩ := rfl

example : (find_element {} presentDriver "id" "x" none).1 =
    Except.ok ⟨By.id, "x", 0⟩ := rfl

example : (find_element {} absentDriver "bogus" "x" none).2 = [] := rfl

/-- The log entries written by the `except` clauses of
`BasePage.click_element`: `ElementNotInteractableException` gets its
own message, every other exception the generic one. -/
def clickCatchLog (ty v : String) (e : PyError) : List Effect :=
  match e with
  | PyError.elementNotInteractable =>
      [Effect.logError ("元素不可交互: " ++ ty ++ "=" ++ v)]
  | _ =>
      [Effect.logError ("点击元素失败: " ++ ty ++ "=" ++ v ++ ", 错误: " ++ pyErrMsg e)]

/-- Models `BasePage.click_element(type, value, timeout)`: resolve via
`find_element`, then wait (window `timeout or self.timeout`) until the
element is clickable, then click.  A clickable-wait timeout raises
`TimeoutException`; the click itself may raise
`ElementNotInteractableException`; every exception is logged by the
`except` clauses and re-raised. -/
def click_element (p : BasePage) (d : Driver) (ty v : String) (timeout : Option Nat) :
    Except PyError Unit × List Effect :=
  match find_element p d ty v timeout with
  | (Except.error e, eff) => (Except.error e, eff ++ clickCatchLog ty v e)
  | (Except.ok el, eff) =>
    match waitUntilB (d.clickable el.locBy el.locValue) (pyOrNat timeout p.timeout) 0 with
    | none =>
        (Except.error PyError.timeoutException,
         eff ++ [Effect.waitStarted] ++ clickCatchLog ty v PyError.timeoutException)
    | some tc =>
      if d.clickNotInteractable el.locBy el.locValue tc then
        (Except.error PyError.elementNotInteractable,
         eff ++ [Effect.waitStarted] ++ clickCatchLog ty v PyError.elementNotInteractable)
      else
        (Except.ok (),
         eff ++ [Effect.waitStarted, Effect.clickAct el.locBy el.locValue,
                 Effect.logInfo ("成功点击元素: " ++ ty ++ "=" ++ v)])

/-- Models `BasePage.input_text(type, value, text, timeout)`: resolve
via `find_element`, then `element.clear()`, then
`element.send_keys(text)` with the text passed through unchanged; on
any exception log and re-raise. -/
def input_text (p : BasePage) (d : Driver) (ty v text : String) (timeout : Option Nat) :
    Except PyError Unit × List Effect :=
  match find_element p d ty v timeout with
  | (Except.error e, eff) =>
      (Except.error e,
       eff ++ [Effect.logError ("输入文本失败: " ++ ty ++ "=" ++ v ++ ", text=" ++ text ++
         ", 错误: " ++ pyErrMsg e)])
  | (Except.ok el, eff) =>
      (Except.ok (),
       eff ++ [Effect.clearAct el.locBy el.locValue,
               Effect.sendKeysAct el.locBy el.locValue text,
               Effect.logInfo ("成功输入文本: " ++ ty ++ "=" ++ v ++ ", text=" ++ text)])

/-- Models `BasePage.is_element_present(type, value, timeout)`: call
`find_element` with `timeout or 1`; return `True` on success, downgrade
`TimeoutException` and `NoSuchElementException` to `False`, and let
every other exception propagate. -/
def is_element_present (p : BasePage) (d : Driver) (ty v : String) (timeout : Option Nat) :
    Except PyError Bool × List Effect :=
  match find_element p d ty v (some (pyOrNat timeout 1)) with
  | (Except.ok _, eff) => (Except.ok true, eff)
  | (Except.error PyError.timeoutException, eff) => (Except.ok false, eff)
  | (Except.error PyError.noSuchElement, eff) => (Except.ok false, eff)
  | (Except.error e, eff) => (Except.error e, eff)

/-- The loop of `BasePage.switch_to_window`: switch into each handle in
enumeration order and stop as soon as the title of the now-active
window equals the target; when the handles are exhausted the driver is
left on the last handle visited and the caller restores and raises. -/
def switchLoop (title : String) (d : Driver) : List String → Except PyError Unit × Driver
  | [] =>
      (Except.error (PyError.valueError ("未找到标题为 " ++ title ++ " 的窗口")), d)
  | h :: rest =>
    let d2 : Driver := { d with currentWindow := h }
    if d.titleOf h = title then (Except.ok (), d2) else switchLoop title d2 rest

/-- Models `BasePage.switch_to_window(title)`: remember the original
window, run the enumeration loop, log success, or on failure restore
the original window, raise `ValueError` and log the failure. -/
def switch_to_window (d : Driver) (title : String) :
    Except PyError Unit × Driver × List Effect :=
  match switchLoop title d d.handles with
  | (Except.ok _, d2) =>
      (Except.ok (), d2, [Effect.logInfo ("成功切换到窗口: " ++ title)])
  | (Except.error e, d2) =>
      (Except.error e, { d2 with currentWindow := d.currentWindow },
       [Effect.logError ("切换窗口失败: " ++ title ++ ", 错误: " ++ pyErrMsg e)])

/-- Driver with two windows titled A and B, a third window active. -/
def winDriver : Driver :=
  { handles := ["w1", "w2"],
    titleOf := fun h => if h = "w1" then "A" else if h = "w2" then "B" else "",
    currentWindow := "w0" }

example : (switch_to_window winDriver "B").2.1.currentWindow = "w2" := rfl

example : (switch_to_window winDriver "NoSuchTitle").2.1.currentWindow = "w0" := rfl

example : (click_element {} presentDriver "id" "su" (some 1)).1 =
    Except.error PyError.timeoutException := rfl

example : (is_element_present {} absentDriver "id" "x" none).1 =
    Except.ok false := rfl

/-- True when the effect list contains a screenshot write. -/
def hasScreenshot (eff : List Effect) : Bool :=
  eff.any fun e =>
    match e with
    | Effect.screenshot _ => true
    | _ => false

/-- True when resolution succeeded. -/
def exceptIsOk {α : Type} : Except PyError α → Bool
  | Except.ok _ => true
  | Except.error _ => false

/-- A wait whose condition polls absent at every instant of its window
times out. -/
theorem waitLoop_all_absent (poll : Nat → Poll) :
    ∀ fuel t, (∀ k, k ≤ fuel → poll (t + k) = Poll.absent) →
      waitLoop poll fuel t = Except.error PyError.timeoutException := by
  intro fuel
  induction fuel with
  | zero =>
    intro t h
    have h0 : poll t = Poll.absent := by simpa using h 0 (Nat.le_refl 0)
    simp [waitLoop, h0]
  | succ f ih =>
    intro t h
    have h0 : poll t = Poll.absent := by simpa using h 0 (Nat.zero_le _)
    have hrest : ∀ k, k ≤ f → poll (t + 1 + k) = Poll.absent := by
      intro k hk
      have heq : t + 1 + k = t + (k + 1) := by omega
      rw [heq]
      exact h (k + 1) (Nat.succ_le_succ hk)
    simp [waitLoop, h0, ih (t + 1) hrest]

/-- A boolean wait whose condition is false at every instant of its
window returns no instant. -/
theorem waitUntilB_all_false (cond : Nat → Bool) :
    ∀ fuel t, (∀ k, k ≤ fuel → cond (t + k) = false) →
      waitUntilB cond fuel t = none := by
  intro fuel
  induction fuel with
  | zero =>
    intro t h
    have h0 : cond t = false := by simpa using h 0 (Nat.le_refl 0)
    simp [waitUntilB, h0]
  | succ f ih =>
    intro t h
    have h0 : cond t = false := by simpa using h 0 (Nat.zero_le _)
    have hrest : ∀ k, k ≤ f → cond (t + 1 + k) = false := by
      intro k hk
      have heq : t + 1 + k = t + (k + 1) := by omega
      rw [heq]
      exact h (k + 1) (Nat.succ_le_succ hk)
    simp [waitUntilB, h0, ih (t + 1) hrest]

/-- The presence wait never raises `NoSuchElementException`: that
exception is swallowed by polling and only `TimeoutException` or a
driver fault escapes. -/
theorem waitLoop_ne_noSuch (poll : Nat → Poll) :
    ∀ fuel t, waitLoop poll fuel t ≠ Except.error PyError.noSuchElement := by
  intro fuel
  induction fuel with
  | zero =>
    intro t
    cases h : poll t <;> simp [waitLoop, h]
  | succ f ih =>
    intro t
    cases h : poll t <;> simp [waitLoop, h]
    exact ih (t + 1)

/-- `find_element` never fails with `NoSuchElementException`. -/
theorem find_element_ne_noSuch (p : BasePage) (d : Driver) (ty v : String)
    (timeout : Option Nat) :
    (find_element p d ty v timeout).1 ≠ Except.error PyError.noSuchElement := by
  cases hl : assocLookup LOCATOR_MAP ty with
  | none => simp [find_element, hl]
  | some b =>
    cases hw : waitLoop (d.poll b v) (pyOrNat timeout p.timeout) 0 with
    | ok t => simp [find_element, hl, hw]
    | error e =>
      cases e <;>
        first
          | exact absurd hw (waitLoop_ne_noSuch _ _ _)
          | simp [find_element, hl, hw]

/-- When `find_element` times out, its effect trace is exactly the wait,
the error log entry and the diagnostic screenshot write. -/
theorem find_element_timeout_eff (p : BasePage) (d : Driver) (ty v : String)
    (timeout : Option Nat)
    (h : (find_element p d ty v timeout).1 = Except.error PyError.timeoutException) :
    (find_element p d ty v timeout).2 =
      [Effect.waitStarted, Effect.logError ("超时未找到元素: " ++ ty ++ "=" ++ v)] ++
        save_screenshot ("element_not_found_" ++ ty ++ "_" ++ v) := by
  cases hl : assocLookup LOCATOR_MAP ty with
  | none => simp [find_element, hl] at h
  | some b =>
    cases hw : waitLoop (d.poll b v) (pyOrNat timeout p.timeout) 0 with
    | ok t => simp [find_element, hl, hw] at h
    | error e =>
      cases e <;> simp_all [find_element, hl, hw]

/-- A name outside the recognized set has no entry in the locator
registry. -/
theorem lookup_eq_none_of_not_mem (s : String) (h : s ∉ recognizedStrategies) :
    assocLookup LOCATOR_MAP s = none := by
  simp only [recognizedStrategies, List.mem_cons, List.not_mem_nil, or_false] at h
  push_neg at h
  obtain ⟨h1, h2, h3, h4, h5, h6, h7, h8⟩ := h
  simp [LOCATOR_MAP, assocLookup, h1, h2, h3, h4, h5, h6, h7, h8]

/-- `is_element_present` passes the effect trace of the underlying
`find_element` call through unchanged. -/
theorem is_element_present_eff (p : BasePage) (d : Driver) (ty v : String)
    (timeout : Option Nat) :
    (is_element_present p d ty v timeout).2 =
      (find_element p d ty v (some (pyOrNat timeout 1))).2 := by
  cases hf : find_element p d ty v (some (pyOrNat timeout 1)) with
  | mk r eff =>
    cases r with
    | ok el => simp [is_element_present, hf]
    | error e => cases e <;> simp [is_element_present, hf]


/-- C4: for every strategy name in the fixed set {id, name, tag, class,
link, plink, css, xpath} locator-registry lookup is deterministic and
total, yielding the corresponding native locator strategy; for every
name outside that set resolution fails with the unsupported-strategy
error. -/
theorem claim_C4 (s : String) :
    (assocLookup LOCATOR_MAP "id" = some By.id ∧
     assocLookup LOCATOR_MAP "name" = some By.name ∧
     assocLookup LOCATOR_MAP "tag" = some By.tagName ∧
     assocLookup LOCATOR_MAP "class" = some By.className ∧
     assocLookup LOCATOR_MAP "link" = some By.linkText ∧
     assocLookup LOCATOR_MAP "plink" = some By.plinkText ∧
     assocLookup LOCATOR_MAP "css" = some By.cssSelector ∧
     assocLookup LOCATOR_MAP "xpath" = some By.xpath) ∧
    (s ∉ recognizedStrategies →
      assocLookup LOCATOR_MAP s = none ∧
      ∀ (p : BasePage) (d : Driver) (v : String) (timeout : Option Nat),
        (find_element p d s v timeout).1 =
          Except.error (PyError.valueError ("不支持的定位方式: " ++ s))) := by
  constructor
  · exact ⟨rfl, rfl, rfl, rfl, rfl, rfl, rfl, rfl⟩
  · intro h
    have hn := lookup_eq_none_of_not_mem s h
    exact ⟨hn, fun p d v timeout => by simp [find_element, hn]⟩

/-- C4 witness: the strategy name bogus is unrecognized and makes
resolution fail with the unsupported-strategy error. -/
theorem claim_C4_witness :
    assocLookup LOCATOR_MAP "bogus" = none ∧
    (find_element {} absentDriver "bogus" "x" none).1 =
      Except.error (PyError.valueError ("不支持的定位方式: " ++ "bogus")) := by
  have h := (claim_C4 "bogus").2 (by decide)
  exact ⟨h.1, h.2 {} absentDriver "x" none⟩

/-- C10: for every strategy name outside the recognized set,
`find_element` fails with the unsupported-strategy error before any
driver interaction: the effect trace is empty, so no wait is started,
no screenshot is written and no log entry is produced. -/
theorem claim_C10 (p : BasePage) (d : Driver) (ty v : String) (timeout : Option Nat)
    (hty : ty ∉ recognizedStrategies) :
    find_element p d ty v timeout =
      (Except.error (PyError.valueError ("不支持的定位方式: " ++ ty)), ([] : List Effect)) := by
  simp [find_element, lookup_eq_none_of_not_mem ty hty]

/-- C10 witness: at the unrecognized name bogus, `find_element` fails
with the unsupported-strategy error and an empty effect trace. -/
theorem claim_C10_witness :
    find_element {} absentDriver "bogus" "val" none =
      (Except.error (PyError.valueError ("不支持的定位方式: " ++ "bogus")), ([] : List Effect)) :=
  claim_C10 {} absentDriver "bogus" "val" none (by decide)

/-- C7: the configured default timeout is 10 time-units, an unspecified
timeout falls back to it, and `find_element` with no timeout behaves
exactly as with an explicit timeout of 10. -/
theorem claim_C7 (d : Driver) (ty v : String) :
    ({} : BasePage).timeout = 10 ∧
    (∀ p : BasePage, pyOrNat none p.timeout = p.timeout) ∧
    find_element {} d ty v none = find_element {} d ty v (some 10) := by
  refine ⟨rfl, fun p => rfl, rfl⟩

/-- C5: `find_element` writes a diagnostic screenshot if and only if
resolution times out, the artifact path is deterministically derived
from the strategy and value, and the timeout is propagated to the
caller. -/
theorem claim_C5 (p : BasePage) (d : Driver) (ty v : String) (timeout : Option Nat) :
    (hasScreenshot (find_element p d ty v timeout).2 = true ↔
      (find_element p d ty v timeout).1 = Except.error PyError.timeoutException) ∧
    ((find_element p d ty v timeout).1 = Except.error PyError.timeoutException →
      Effect.screenshot
          ("../data/result_pics/" ++ ("element_not_found_" ++ ty ++ "_" ++ v) ++ ".png")
        ∈ (find_element p d ty v timeout).2) := by
  constructor
  · cases hl : assocLookup LOCATOR_MAP ty with
    | none => simp [find_element, hl, hasScreenshot]
    | some b =>
      cases hw : waitLoop (d.poll b v) (pyOrNat timeout p.timeout) 0 with
      | ok t => simp [find_element, hl, hw, hasScreenshot]
      | error e =>
        cases e <;> simp [find_element, hl, hw, hasScreenshot, save_screenshot]
  · intro h
    rw [find_element_timeout_eff p d ty v timeout h]
    simp [save_screenshot]

/-- C5 witness: a resolution timeout at strategy id and value x writes
the deterministically named screenshot artifact. -/
theorem claim_C5_witness :
    Effect.screenshot
        ("../data/result_pics/" ++ ("element_not_found_" ++ "id" ++ "_" ++ "x") ++ ".png")
      ∈ (find_element {} absentDriver "id" "x" (some 1)).2 :=
  (claim_C5 {} absentDriver "id" "x" (some 1)).2 rfl

/-- C1 counterexample: at strategy id and value x, with an element that
is absent at call time (instant 0) and appears at instant 1, a
`find_element` call with timeout=0 succeeds, because the Python falsy
check `timeout or self.timeout` replaces 0 by the default window of
10. -/
theorem claim_C1_counterexample :
    lateDriver.poll By.id "x" 0 = Poll.absent ∧
    (find_element {} lateDriver "id" "x" (some 0)).1 = Except.ok ⟨By.id, "x", 1⟩ :=
  ⟨rfl, rfl⟩

/-- C1 (amended): a timeout of 0 is treated as unspecified and falls
back to the configured default window, so a call with timeout=0 is
identical to a call with no timeout and does not succeed only when no
matching element is present at any instant of the default window. -/
theorem claim_C1 (d : Driver) (ty v : String) (b : By)
    (hb : assocLookup LOCATOR_MAP ty = some b)
    (habs : ∀ t, t ≤ 10 → d.poll b v t = Poll.absent) :
    (find_element {} d ty v (some 0)).1 = Except.error PyError.timeoutException ∧
    find_element {} d ty v (some 0) = find_element {} d ty v none := by
  have hw : waitLoop (d.poll b v) 10 0 = Except.error PyError.timeoutException :=
    waitLoop_all_absent _ 10 0 (fun k hk => by simpa using habs k hk)
  constructor
  · have hw2 : waitLoop (d.poll b v) (pyOrNat (some 0) ({} : BasePage).timeout) 0 =
        Except.error PyError.timeoutException := hw
    simp [find_element, hb, hw2]
  · rfl

/-- C1 witness: with no matching element at any instant, a timeout=0
call times out and equals the call with no timeout. -/
theorem claim_C1_witness :
    (∀ t, t ≤ 10 → absentDriver.poll By.id "x" t = Poll.absent) ∧
    (find_element {} absentDriver "id" "x" (some 0)).1 =
      Except.error PyError.timeoutException ∧
    find_element {} absentDriver "id" "x" (some 0) =
      find_element {} absentDriver "id" "x" none := by
  have h := claim_C1 absentDriver "id" "x" By.id rfl (fun t _ => rfl)
  exact ⟨fun t _ => rfl, h.1, h.2⟩

/-- C2 counterexample: with the element resolved at instant 0 but never
clickable within the window, `click_element` fails with the timeout
exception, not with the not-interactable exception the claim names. -/
theorem claim_C2_counterexample :
    (∀ t, t ≤ 1 → presentDriver.clickable By.id "su" t = false) ∧
    (find_element {} presentDriver "id" "su" (some 1)).1 = Except.ok ⟨By.id, "su", 0⟩ ∧
    (click_element {} presentDriver "id" "su" (some 1)).1 =
      Except.error PyError.timeoutException ∧
    (click_element {} presentDriver "id" "su" (some 1)).1 ≠
      Except.error PyError.elementNotInteractable := by
  refine ⟨fun t _ => rfl, rfl, rfl, ?_⟩
  intro h
  rw [show (click_element {} presentDriver "id" "su" (some 1)).1 =
      Except.error PyError.timeoutException from rfl] at h
  simp at h

/-- C2 (amended): if resolution fails by timeout, `click_element` fails
with the element-not-found timeout fault; if the element resolves but
never becomes clickable within the wait window, `click_element` also
fails with the timeout fault rather than with the not-interactable
fault, which arises only when the click action itself raises it. -/
theorem claim_C2 (d : Driver) (ty v : String) (b : By) (timeout : Option Nat)
    (hb : assocLookup LOCATOR_MAP ty = some b) :
    ((∀ t, t ≤ pyOrNat timeout 10 → d.poll b v t = Poll.absent) →
      (click_element {} d ty v timeout).1 = Except.error PyError.timeoutException) ∧
    (∀ el : Elem, (find_element {} d ty v timeout).1 = Except.ok el →
      (∀ t, t ≤ pyOrNat timeout 10 → d.clickable el.locBy el.locValue t = false) →
      (click_element {} d ty v timeout).1 = Except.error PyError.timeoutException ∧
      (click_element {} d ty v timeout).1 ≠
        Except.error PyError.elementNotInteractable) := by
  constructor
  · intro habs
    have hw : waitLoop (d.poll b v) (pyOrNat timeout ({} : BasePage).timeout) 0 =
        Except.error PyError.timeoutException :=
      waitLoop_all_absent _ _ 0 (fun k hk => by simpa using habs k hk)
    simp [click_element, find_element, hb, hw, clickCatchLog]
  · intro el hok hcl
    have hwb : waitUntilB (d.clickable el.locBy el.locValue)
        (pyOrNat timeout ({} : BasePage).timeout) 0 = none :=
      waitUntilB_all_false _ _ 0 (fun k hk => by simpa using hcl k hk)
    cases hf : find_element {} d ty v timeout with
    | mk r eff =>
      rw [hf] at hok
      simp only at hok
      subst hok
      constructor
      · simp [click_element, hf, hwb]
      · simp [click_element, hf, hwb, clickCatchLog]

/-- C2 witness: a resolution timeout and a clickable-wait timeout both
surface as the timeout fault. -/
theorem claim_C2_witness :
    (click_element {} absentDriver "id" "a" (some 1)).1 =
      Except.error PyError.timeoutException ∧
    ((click_element {} presentDriver "id" "su" (some 2)).1 =
        Except.error PyError.timeoutException ∧
      (click_element {} presentDriver "id" "su" (some 2)).1 ≠
        Except.error PyError.elementNotInteractable) := by
  constructor
  · exact (claim_C2 absentDriver "id" "a" By.id (some 1) rfl).1 (fun t _ => rfl)
  · exact (claim_C2 presentDriver "id" "su" By.id (some 2) rfl).2
      ⟨By.id, "su", 0⟩ rfl (fun t _ => rfl)

/-- C3: `is_element_present` returns false exactly where the underlying
`find_element` call at the effective short timeout times out, returns
true exactly where it succeeds, never propagates the timeout or
no-such-element faults, propagates every other fault unchanged, and an
unspecified timeout defaults to 1 time-unit. -/
theorem claim_C3 (p : BasePage) (d : Driver) (ty v : String) (timeout : Option Nat) :
    ((is_element_present p d ty v timeout).1 = Except.ok false ↔
      (find_element p d ty v (some (pyOrNat timeout 1))).1 =
        Except.error PyError.timeoutException) ∧
    ((is_element_present p d ty v timeout).1 = Except.ok true ↔
      exceptIsOk (find_element p d ty v (some (pyOrNat timeout 1))).1 = true) ∧
    (∀ e1 : PyError, e1 ≠ PyError.timeoutException → e1 ≠ PyError.noSuchElement →
      ((is_element_present p d ty v timeout).1 = Except.error e1 ↔
        (find_element p d ty v (some (pyOrNat timeout 1))).1 = Except.error e1)) ∧
    (is_element_present p d ty v timeout).1 ≠ Except.error PyError.timeoutException ∧
    (is_element_present p d ty v timeout).1 ≠ Except.error PyError.noSuchElement ∧
    is_element_present p d ty v none = is_element_present p d ty v (some 1) := by
  have hdef : is_element_present p d ty v none = is_element_present p d ty v (some 1) := rfl
  cases hf : find_element p d ty v (some (pyOrNat timeout 1)) with
  | mk r eff =>
    cases r with
    | ok el =>
      refine ⟨by simp [is_element_present, hf],
        by simp [is_element_present, hf, exceptIsOk], ?_,
        by simp [is_element_present, hf], by simp [is_element_present, hf], hdef⟩
      intro e1 h1 h2
      simp [is_element_present, hf]
    | error e =>
      cases e with
      | noSuchElement =>
        have hne := find_element_ne_noSuch p d ty v (some (pyOrNat timeout 1))
        rw [hf] at hne
        simp at hne
      | timeoutException =>
        refine ⟨by simp [is_element_present, hf],
          by simp [is_element_present, hf, exceptIsOk], ?_,
          by simp [is_element_present, hf], by simp [is_element_present, hf], hdef⟩
        intro e1 h1 h2
        simp [is_element_present, hf, Ne.symm h1]
      | valueError m =>
        refine ⟨by simp [is_element_present, hf],
          by simp [is_element_present, hf, exceptIsOk], ?_,
          by simp [is_element_present, hf], by simp [is_element_present, hf], hdef⟩
        intro e1 h1 h2
        simp [is_element_present, hf]
      | elementNotInteractable =>
        refine ⟨by simp [is_element_present, hf],
          by simp [is_element_present, hf, exceptIsOk], ?_,
          by simp [is_element_present, hf], by simp [is_element_present, hf], hdef⟩
        intro e1 h1 h2
        simp [is_element_present, hf]
      | webDriverFault m =>
        refine ⟨by simp [is_element_present, hf],
          by simp [is_element_present, hf, exceptIsOk], ?_,
          by simp [is_element_present, hf], by simp [is_element_present, hf], hdef⟩
        intro e1 h1 h2
        simp [is_element_present, hf]

/-- C3 witness: a presence check is false where resolution times out
and true where it succeeds. -/
theorem claim_C3_witness :
    (is_element_present {} absentDriver "id" "x" none).1 = Except.ok false ∧
    (is_element_present {} presentDriver "id" "x" none).1 = Except.ok true := by
  constructor
  · exact (claim_C3 {} absentDriver "id" "x" none).1.mpr rfl
  · exact (claim_C3 {} presentDriver "id" "x" none).2.1.mpr rfl

/-- A match in the window loop switches to the first handle whose title
equals the target and stops there. -/
theorem switchLoop_found (title : String) :
    ∀ (hs : List String) (d : Driver) (h : String),
      hs.find? (fun x => d.titleOf x == title) = some h →
      (switchLoop title d hs).1 = Except.ok () ∧
      (switchLoop title d hs).2.currentWindow = h := by
  intro hs
  induction hs with
  | nil =>
    intro d h hfind
    simp at hfind
  | cons a rest ih =>
    intro d h hfind
    by_cases ha : d.titleOf a = title
    · rw [List.find?_cons_of_pos _ (by simp [ha])] at hfind
      injection hfind with hh
      subst hh
      simp [switchLoop, ha]
    · rw [List.find?_cons_of_neg _ (by simp [ha])] at hfind
      have hrec := ih { d with currentWindow := a } h hfind
      simpa [switchLoop, ha] using hrec

/-- With no handle whose title matches, the window loop exhausts the
handles and raises the window-not-found error. -/
theorem switchLoop_none (title : String) :
    ∀ (hs : List String) (d : Driver),
      hs.find? (fun x => d.titleOf x == title) = none →
      (switchLoop title d hs).1 =
        Except.error (PyError.valueError ("未找到标题为 " ++ title ++ " 的窗口")) := by
  intro hs
  induction hs with
  | nil =>
    intro d hfind
    simp [switchLoop]
  | cons a rest ih =>
    intro d hfind
    by_cases ha : d.titleOf a = title
    · rw [List.find?_cons_of_pos _ (by simp [ha])] at hfind
      cases hfind
    · rw [List.find?_cons_of_neg _ (by simp [ha])] at hfind
      have hrec := ih { d with currentWindow := a } hfind
      simpa [switchLoop, ha] using hrec

/-- C6: `switch_to_window` visits the window handles in driver
enumeration order, stops on the first whose title equals the argument
leaving that window active; with no match it restores the originally
active window and fails with the window-not-found error, so the
original window remains active after the failure. -/
theorem claim_C6 (d : Driver) (title : String) :
    (∀ h : String, d.handles.find? (fun x => d.titleOf x == title) = some h →
      (switch_to_window d title).1 = Except.ok () ∧
      (switch_to_window d title).2.1.currentWindow = h) ∧
    (d.handles.find? (fun x => d.titleOf x == title) = none →
      (switch_to_window d title).1 =
        Except.error (PyError.valueError ("未找到标题为 " ++ title ++ " 的窗口")) ∧
      (switch_to_window d title).2.1.currentWindow = d.currentWindow) := by
  constructor
  · intro h hfind
    have hs := switchLoop_found title d.handles d h hfind
    cases hsl : switchLoop title d d.handles with
    | mk r d2 =>
      rw [hsl] at hs
      cases r with
      | ok u =>
        simp only at hs
        simp [switch_to_window, hsl, hs.2]
      | error e =>
        simp at hs
  · intro hfind
    have hs := switchLoop_none title d.handles d hfind
    cases hsl : switchLoop title d d.handles with
    | mk r d2 =>
      rw [hsl] at hs
      cases r with
      | ok u => simp at hs
      | error e =>
        injection hs with he
        subst he
        simp [switch_to_window, hsl]

/-- C6 witness: with windows titled A and B, switching to B activates
the second handle, and switching to a missing title fails and leaves
the original window active. -/
theorem claim_C6_witness :
    ((switch_to_window winDriver "B").1 = Except.ok () ∧
      (switch_to_window winDriver "B").2.1.currentWindow = "w2") ∧
    ((switch_to_window winDriver "NoSuchTitle").1 =
        Except.error (PyError.valueError ("未找到标题为 " ++ "NoSuchTitle" ++ " 的窗口")) ∧
      (switch_to_window winDriver "NoSuchTitle").2.1.currentWindow =
        winDriver.currentWindow) := by
  constructor
  · exact (claim_C6 winDriver "B").1 "w2" rfl
  · exact (claim_C6 winDriver "NoSuchTitle").2 rfl

/-- C8: on successful resolution `input_text` first resolves, then
clears the existing content, then sends exactly the given text
unchanged, in that order. -/
theorem claim_C8 (p : BasePage) (d : Driver) (ty v text : String) (timeout : Option Nat)
    (el : Elem) (hf : (find_element p d ty v timeout).1 = Except.ok el) :
    input_text p d ty v text timeout =
      (Except.ok (), (find_element p d ty v timeout).2 ++
        [Effect.clearAct el.locBy el.locValue,
         Effect.sendKeysAct el.locBy el.locValue text,
         Effect.logInfo ("成功输入文本: " ++ ty ++ "=" ++ v ++ ", text=" ++ text)]) := by
  cases hfe : find_element p d ty v timeout with
  | mk r eff =>
    rw [hfe] at hf
    simp only at hf
    subst hf
    simp [input_text, hfe]

/-- C8 witness: a concrete input-text call resolves, clears, and sends
the text verbatim, in that order. -/
theorem claim_C8_witness :
    input_text {} presentDriver "id" "kw" "automation testing" (some 1) =
      (Except.ok (), (find_element {} presentDriver "id" "kw" (some 1)).2 ++
        [Effect.clearAct By.id "kw",
         Effect.sendKeysAct By.id "kw" "automation testing",
         Effect.logInfo
           ("成功输入文本: " ++ "id" ++ "=" ++ "kw" ++ ", text=" ++ "automation testing")]) :=
  claim_C8 {} presentDriver "id" "kw" "automation testing" (some 1) ⟨By.id, "kw", 0⟩ rfl

/-- A false presence check means the underlying resolution timed out at
the effective short window. -/
theorem is_element_present_false_timeout (p : BasePage) (d : Driver) (ty v : String)
    (timeout : Option Nat)
    (hfalse : (is_element_present p d ty v timeout).1 = Except.ok false) :
    (find_element p d ty v (some (pyOrNat timeout 1))).1 =
      Except.error PyError.timeoutException := by
  cases hf : find_element p d ty v (some (pyOrNat timeout 1)) with
  | mk r eff =>
    cases r with
    | ok el => simp [is_element_present, hf] at hfalse
    | error e =>
      cases e with
      | timeoutException => simp
      | noSuchElement =>
        have hne := find_element_ne_noSuch p d ty v (some (pyOrNat timeout 1))
        rw [hf] at hne
        simp at hne
      | valueError m => simp [is_element_present, hf] at hfalse
      | elementNotInteractable => simp [is_element_present, hf] at hfalse
      | webDriverFault m => simp [is_element_present, hf] at hfalse

/-- C9: when `is_element_present` returns false because resolution
timed out, the diagnostic screenshot has been written and the error has
been logged, since the delegated `find_element` runs its timeout branch
before the timeout is downgraded to false. -/
theorem claim_C9 (p : BasePage) (d : Driver) (ty v : String) (timeout : Option Nat)
    (hfalse : (is_element_present p d ty v timeout).1 = Except.ok false) :
    Effect.screenshot
        ("../data/result_pics/" ++ ("element_not_found_" ++ ty ++ "_" ++ v) ++ ".png")
      ∈ (is_element_present p d ty v timeout).2 ∧
    Effect.logError ("超时未找到元素: " ++ ty ++ "=" ++ v)
      ∈ (is_element_present p d ty v timeout).2 := by
  have htime := is_element_present_false_timeout p d ty v timeout hfalse
  have heff := find_element_timeout_eff p d ty v (some (pyOrNat timeout 1)) htime
  rw [is_element_present_eff p d ty v timeout, heff]
  simp [save_screenshot]

/-- C9 witness: a concrete false presence check carries the screenshot
write and the error log entry in its effect trace. -/
theorem claim_C9_witness :
    Effect.screenshot
        ("../data/result_pics/" ++ ("element_not_found_" ++ "id" ++ "_" ++ "v1") ++ ".png")
      ∈ (is_element_present {} absentDriver "id" "v1" none).2 ∧
    Effect.logError ("超时未找到元素: " ++ "id" ++ "=" ++ "v1")
      ∈ (is_element_present {} absentDriver "id" "v1" none).2 :=
  claim_C9 {} absentDriver "id" "v1" none rfl
